import Mathlib

/-!
Verification of the CHEC-APM-CALLAO port-dashboard core logic.

Shallow embedding of the classification and aggregation core of
`src/app.py` and the occupancy filter of `src/lookahead_buques.py`.
Timestamps are modelled as integers (total order, matching `datetime`
comparison); deadweight values are integers with `Option` marking a
missing (NaN) cell.
-/

namespace PortDashboard

/-- A time of day, as produced by parsing an `HH:MM:SS` cell
(`.time()` of a parsed pandas timestamp in `parse_datetime_from_row`). -/
structure Time where
  hour : Nat
  minute : Nat
  second : Nat
deriving Repr, DecidableEq

/-- Seconds since midnight of a `Time`, used by `datetime.combine`. -/
def Time.toSeconds (t : Time) : Int :=
  (t.hour : Int) * 3600 + (t.minute : Int) * 60 + (t.second : Int)

/-- `datetime.combine(date_part, time_part)` from `app.py` line 60:
a day index together with a time of day, flattened to an integer
timestamp (seconds). -/
def combine (day : Int) (t : Time) : Int :=
  day * 86400 + t.toSeconds

/-- A processed vessel record with both timestamps present: a row of
`proc_valid` in `app.py` (lines 158-168). -/
structure VesselRecord where
  ship : String
  arrival_dt : Int
  departure_dt : Int
  berth : Option String
  dwt : Option Int
deriving Repr, DecidableEq

/-- `arriving` (`app.py` line 175): records with
`arrival_dt >= current_dt` and `arrival_dt <= end_dt`. -/
def arriving (recs : List VesselRecord) (current_dt end_dt : Int) : List VesselRecord :=
  recs.filter (fun r => current_dt ≤ r.arrival_dt ∧ r.arrival_dt ≤ end_dt)

/-- `departing` (`app.py` line 176): records with
`departure_dt >= current_dt` and `departure_dt <= end_dt`. -/
def departing (recs : List VesselRecord) (current_dt end_dt : Int) : List VesselRecord :=
  recs.filter (fun r => current_dt ≤ r.departure_dt ∧ r.departure_dt ≤ end_dt)

/-- `in_port` (`app.py` line 177): records with
`arrival_dt < end_dt` and `departure_dt > current_dt`. -/
def in_port (recs : List VesselRecord) (current_dt end_dt : Int) : List VesselRecord :=
  recs.filter (fun r => r.arrival_dt < end_dt ∧ current_dt < r.departure_dt)

/-- `ocupacion` filter (`lookahead_buques.py` lines 30-33): records with
`arrival <= tiempo_actual + lookahead_h` and `departure >= tiempo_actual`. -/
def ocupacion (recs : List VesselRecord) (tiempo_actual lookahead : Int) : List VesselRecord :=
  recs.filter (fun r =>
    r.arrival_dt ≤ tiempo_actual + lookahead ∧ tiempo_actual ≤ r.departure_dt)

/-- A raw date cell: absent (NaN), an already-structured timestamp
(whose date part is a day index), or text. -/
inductive DateCell where
  | null : DateCell
  | structured : Int → DateCell
  | text : String → DateCell
deriving Repr, DecidableEq

/-- A raw time cell: absent (NaN), an already-structured timestamp
(whose time part is a `Time`), or text. -/
inductive TimeCell where
  | null : TimeCell
  | structured : Time → TimeCell
  | text : String → TimeCell
deriving Repr, DecidableEq

/-- Characters of one cell text, split at every occurrence of `sep`
(model of Python `str.split` / the field splitting done by the pandas
format parsers), written structurally so it evaluates in the kernel. -/
def splitChars (sep : Char) : List Char → List (List Char)
  | [] => [[]]
  | c :: rest =>
      match splitChars sep rest with
      | [] => [[c]]
      | h :: t => if c = sep then [] :: h :: t else (c :: h) :: t

/-- One numeric text field: all digits, nonempty (model of the strict
numeric field parse inside `pd.to_datetime`). -/
def digitsToNat (l : List Char) : Option Nat :=
  if l ≠ [] ∧ l.all Char.isDigit then
    some (l.foldl (fun acc c => acc * 10 + (c.toNat - 48)) 0)
  else none

/-- Whitespace strip (model of Python `str.strip`). -/
def trimChars (l : List Char) : List Char :=
  ((l.dropWhile Char.isWhitespace).reverse.dropWhile Char.isWhitespace).reverse

/-- Model of the strict-format time parse
(`pd.to_datetime(time_str, format=...).time()` with format `%H:%M:%S`,
`app.py` line 58): three colon-separated numeric fields in clock range. -/
def parseHMS (s : String) : Option Time :=
  match (splitChars ':' s.data).map digitsToNat with
  | [some h, some m, some sec] =>
      if h ≤ 23 ∧ m ≤ 59 ∧ sec ≤ 59 then some ⟨h, m, sec⟩ else none
  | _ => none

/-- Model of `pd.to_datetime(date_str, dayfirst=True).date()`
(`app.py` line 50): day-first `D/M/Y` text mapped injectively and
order-consistently to a day index; any failure is `none`. -/
def parseDayFirstDate (s : String) : Option Int :=
  match (splitChars '/' s.data).map digitsToNat with
  | [some d, some m, some y] =>
      if 1 ≤ d ∧ d ≤ 31 ∧ 1 ≤ m ∧ m ≤ 12 then
        some ((y : Int) * 372 + (m : Int) * 31 + (d : Int))
      else none
  | _ => none

/-- `if '.' in time_str: time_str = time_str.split('.')[0]`
(`app.py` lines 56-57): drop everything from the first dot on. -/
def truncateFractional (s : String) : String :=
  if '.' ∈ s.data then String.mk (s.data.takeWhile (fun c => c ≠ '.')) else s

/-- Python `str.strip` lifted back to `String`. -/
def stripString (s : String) : String :=
  String.mk (trimChars s.data)

/-- Date-cell parse (`app.py` lines 46-50): a structured timestamp passes
through via `.date()`; text is stripped and parsed day-first. -/
def parseDateCell : DateCell → Option Int
  | DateCell.null => none
  | DateCell.structured d => some d
  | DateCell.text s => parseDayFirstDate (stripString s)

/-- Time-cell parse (`app.py` lines 52-58): a structured timestamp passes
through via `.time()`; text is stripped, any fractional-seconds suffix is
truncated, then the rest is parsed as `HH:MM:SS`. -/
def parseTimeCell : TimeCell → Option Time
  | TimeCell.null => none
  | TimeCell.structured t => some t
  | TimeCell.text s => parseHMS (truncateFractional (stripString s))

/-- `parse_datetime_from_row` (`app.py` lines 37-63): `None` when either
cell is absent (the `pd.isna` guard) or any parse step fails (the
`try/except` that swallows every exception is modelled by the `Option`
results of the cell parsers); otherwise the combined timestamp.
Total by construction, so it never raises. -/
def parse_datetime_from_row (dc : DateCell) (tc : TimeCell) : Option Int :=
  if dc = DateCell.null ∨ tc = TimeCell.null then none
  else
    match parseDateCell dc, parseTimeCell tc with
    | some d, some t => some (combine d t)
    | _, _ => none

/-- One spreadsheet row as consumed by the processing loop
(`app.py` lines 137-156). -/
structure RawRow where
  ship : String
  arr_date : DateCell
  arr_time : TimeCell
  dep_date : DateCell
  dep_time : TimeCell
  berth : Option String
  dwt : Option Int
deriving Repr, DecidableEq

/-- `proc_valid` (`app.py` lines 158-168): parse both timestamps of every
row and drop the rows where either is missing
(`dropna` on `arrival_dt` / `departure_dt`). -/
def proc_valid (rows : List RawRow) : List VesselRecord :=
  rows.filterMap (fun row =>
    match parse_datetime_from_row row.arr_date row.arr_time,
          parse_datetime_from_row row.dep_date row.dep_time with
    | some a, some d => some ⟨row.ship, a, d, row.berth, row.dwt⟩
    | _, _ => none)

/-- Missing deadweight treated as 0 (`fillna(0)` in `app.py` line 380). -/
def dwtOrZero (r : VesselRecord) : Int := r.dwt.getD 0

/-- The records already in port at the window start
(`app.py` lines 377-379). -/
def present_at_start (recs : List VesselRecord) (current_dt : Int) : List VesselRecord :=
  recs.filter (fun r => r.arrival_dt < current_dt ∧ current_dt < r.departure_dt)

/-- `initial_dwt` (`app.py` lines 377-380). -/
def initial_dwt (recs : List VesselRecord) (current_dt : Int) : Int :=
  ((present_at_start recs current_dt).map dwtOrZero).sum

/-- One entry of the `dwt_timeline` event list (`app.py` lines 388-400). -/
structure DwtEvent where
  date : Int
  dwt : Int
  type : String
  vessel : String
deriving Repr, DecidableEq

/-- The events one record appends inside the loop of `app.py`
lines 385-400: nothing when its `DWT` is NaN (the `pd.notna` guard),
otherwise an Arrival and/or a Departure event for each of its timestamps
inside `[current_dt, end_dt]`. -/
def recordEvents (r : VesselRecord) (current_dt end_dt : Int) : List DwtEvent :=
  match r.dwt with
  | none => []
  | some w =>
      (if current_dt ≤ r.arrival_dt ∧ r.arrival_dt ≤ end_dt then
        [⟨r.arrival_dt, w, "Arrival", r.ship⟩] else [])
      ++ (if current_dt ≤ r.departure_dt ∧ r.departure_dt ≤ end_dt then
        [⟨r.departure_dt, w, "Departure", r.ship⟩] else [])

/-- `dwt_timeline` (`app.py` lines 383-400). -/
def dwt_timeline (recs : List VesselRecord) (current_dt end_dt : Int) : List DwtEvent :=
  recs.flatMap (fun r => recordEvents r current_dt end_dt)

/-- `DWT_Change` (`app.py` lines 407-410): `+DWT` for an Arrival event,
`-DWT` otherwise. -/
def dwtChange (ev : DwtEvent) : Int :=
  if ev.type = "Arrival" then ev.dwt else -ev.dwt

/-- One point of the cumulative deadweight series. -/
structure DwtPoint where
  date : Int
  dwtInPort : Int
deriving Repr, DecidableEq

/-- Running cumulative sum seeded at `acc`
(`initial_dwt + DWT_Change.cumsum()` in `app.py` line 411). -/
def cumPoints (acc : Int) : List DwtEvent → List DwtPoint
  | [] => []
  | ev :: rest => ⟨ev.date, acc + dwtChange ev⟩ :: cumPoints (acc + dwtChange ev) rest

/-- `sort_values("Date")` (`app.py` line 404). -/
def sortEvents (evs : List DwtEvent) : List DwtEvent :=
  evs.mergeSort (fun a b => decide (a.date ≤ b.date))

/-- The cumulative-DWT branch of `app.py` lines 402-426: `none` when the
event list is empty and the initial DWT is not positive (the dashboard
then shows no series at all); a two-point flat series when the event list
is empty but the initial DWT is positive; otherwise the initial point
followed by the running sums over the date-sorted events. -/
def dwt_plot (recs : List VesselRecord) (current_dt end_dt : Int) :
    Option (List DwtPoint) :=
  let init := initial_dwt recs current_dt
  match dwt_timeline recs current_dt end_dt with
  | [] =>
      if 0 < init then some [⟨current_dt, init⟩, ⟨end_dt, init⟩]
      else none
  | ev :: rest =>
      some (⟨current_dt, init⟩ :: cumPoints init (sortEvents (ev :: rest)))

/-- Terminal error conditions of the dashboard pipeline. -/
inductive AppError where
  | configError
  | noValidData
deriving Repr, DecidableEq

/-- All derived outputs of one run of the dashboard core. -/
structure Analysis where
  arrivingRecs : List VesselRecord
  departingRecs : List VesselRecord
  inPortRecs : List VesselRecord
  initialDwt : Int
  series : Option (List DwtPoint)
deriving Repr, DecidableEq

/-- The dashboard computation after the file is loaded: the window
validation at `app.py` lines 93-95 halts (`st.stop`) before anything is
classified; the empty `proc_valid` check at lines 170-172 halts next;
otherwise every derived output is produced. -/
def runAnalysis (rows : List RawRow) (current_dt end_dt : Int) :
    Except AppError Analysis :=
  if end_dt ≤ current_dt then Except.error AppError.configError
  else
    let v := proc_valid rows
    if v.isEmpty then Except.error AppError.noValidData
    else Except.ok
      { arrivingRecs := arriving v current_dt end_dt
        departingRecs := departing v current_dt end_dt
        inPortRecs := in_port v current_dt end_dt
        initialDwt := initial_dwt v current_dt
        series := dwt_plot v current_dt end_dt }

end PortDashboard

namespace PortDashboard

theorem mem_in_port_iff (recs : List VesselRecord) (s e : Int) (r : VesselRecord) :
    r ∈ in_port recs s e ↔ r ∈ recs ∧ r.arrival_dt < e ∧ s < r.departure_dt := by
  simp [in_port, List.mem_filter, and_assoc]

theorem mem_arriving_iff (recs : List VesselRecord) (s e : Int) (r : VesselRecord) :
    r ∈ arriving recs s e ↔ r ∈ recs ∧ s ≤ r.arrival_dt ∧ r.arrival_dt ≤ e := by
  simp [arriving, List.mem_filter, and_assoc]

theorem mem_departing_iff (recs : List VesselRecord) (s e : Int) (r : VesselRecord) :
    r ∈ departing recs s e ↔ r ∈ recs ∧ s ≤ r.departure_dt ∧ r.departure_dt ≤ e := by
  simp [departing, List.mem_filter, and_assoc]

theorem mem_ocupacion_iff (recs : List VesselRecord) (t L : Int) (r : VesselRecord) :
    r ∈ ocupacion recs t L ↔
      r ∈ recs ∧ r.arrival_dt ≤ t + L ∧ t ≤ r.departure_dt := by
  simp [ocupacion, List.mem_filter, and_assoc]

/-- C1: for every valid record `r` and every window with `end > start`,
`r` is In-Port iff `r.arrival < end` and `r.departure > start`; a record
whose departure equals the window start, or whose arrival equals the
window end, is excluded from In-Port. -/
theorem in_port_membership (recs : List VesselRecord) (s e : Int)
    (_hwin : s < e) (r : VesselRecord) :
    (r ∈ in_port recs s e ↔ r ∈ recs ∧ r.arrival_dt < e ∧ r.departure_dt > s) ∧
    (r.departure_dt = s → r ∉ in_port recs s e) ∧
    (r.arrival_dt = e → r ∉ in_port recs s e) := by
  refine ⟨mem_in_port_iff recs s e r, ?_, ?_⟩ <;>
    intro hb hm <;> rw [mem_in_port_iff] at hm <;> omega

/-- Witness for C1 at a concrete input: a record departing exactly at the
window start is not In-Port. -/
theorem in_port_membership_witness :
    (⟨"A", 1, 5, none, none⟩ : VesselRecord) ∉
      in_port [⟨"A", 1, 5, none, none⟩] 5 10 :=
  (in_port_membership [⟨"A", 1, 5, none, none⟩] 5 10 (by decide)
    ⟨"A", 1, 5, none, none⟩).2.1 rfl

/-- C5: for every valid record and window, Arriving membership is exactly
`start ≤ arrival ≤ end` (both ends inclusive) and Departing membership is
exactly `start ≤ departure ≤ end`. -/
theorem arriving_departing_membership (recs : List VesselRecord) (s e : Int)
    (r : VesselRecord) :
    (r ∈ arriving recs s e ↔ r ∈ recs ∧ s ≤ r.arrival_dt ∧ r.arrival_dt ≤ e) ∧
    (r ∈ departing recs s e ↔ r ∈ recs ∧ s ≤ r.departure_dt ∧ r.departure_dt ≤ e) :=
  ⟨mem_arriving_iff recs s e r, mem_departing_iff recs s e r⟩

/-- C10: for every window with `end > start`, every record counted in
`initial_dwt` (arrival before and departure after the window start) is
also a member of the In-Port subset. -/
theorem present_at_start_subset_in_port (recs : List VesselRecord) (s e : Int)
    (hwin : s < e) (r : VesselRecord) (hr : r ∈ present_at_start recs s) :
    r ∈ in_port recs s e := by
  simp only [present_at_start, List.mem_filter, decide_eq_true_eq] at hr
  exact (mem_in_port_iff recs s e r).2 ⟨hr.1, by omega, hr.2.2⟩

/-- Witness for C10 at a concrete input: a vessel present at the window
start is In-Port. -/
theorem present_at_start_subset_in_port_witness :
    (⟨"A", 1, 7, none, some 3⟩ : VesselRecord) ∈
      in_port [⟨"A", 1, 7, none, some 3⟩] 5 10 :=
  present_at_start_subset_in_port [⟨"A", 1, 7, none, some 3⟩] 5 10 (by decide)
    ⟨"A", 1, 7, none, some 3⟩ (by decide)

/-- C8: whenever the window end is not strictly after the window start,
the pipeline halts with a configuration error and produces no analysis
output (no subsets, no summary, no cumulative series). -/
theorem config_error_halts (rows : List RawRow) (s e : Int) (h : e ≤ s) :
    runAnalysis rows s e = Except.error AppError.configError ∧
    ∀ a : Analysis, runAnalysis rows s e ≠ Except.ok a := by
  refine ⟨by simp [runAnalysis, h], ?_⟩
  intro a ha
  simp [runAnalysis, h] at ha

/-- Witness for C8 at a concrete input: equal start and end halt with the
configuration error. -/
theorem config_error_halts_witness :
    runAnalysis [] 5 5 = Except.error AppError.configError :=
  (config_error_halts [] 5 5 (by decide)).1

/-- C6: `initial_dwt` is the sum of deadweight (missing counted as 0) over
exactly the valid records with `arrival < start` and `departure > start`,
and it is 0 when no record satisfies that condition. -/
theorem initial_dwt_spec (recs : List VesselRecord) (s : Int) :
    initial_dwt recs s =
      (recs.map (fun r =>
        if r.arrival_dt < s ∧ s < r.departure_dt then dwtOrZero r else 0)).sum ∧
    ((∀ r, r ∈ recs → ¬(r.arrival_dt < s ∧ s < r.departure_dt)) →
      initial_dwt recs s = 0) := by
  constructor
  · induction recs with
    | nil => rfl
    | cons a l ih =>
        by_cases h : a.arrival_dt < s ∧ s < a.departure_dt <;>
          simp [initial_dwt, present_at_start, List.filter_cons, h] at ih ⊢ <;>
          omega
  · intro h
    have hnil : present_at_start recs s = [] := by
      simp only [present_at_start]
      rw [List.filter_eq_nil_iff]
      intro r hr
      simpa using h r hr
    simp [initial_dwt, hnil]

/-- Witness for C6 at a concrete input: a vessel arriving after the window
start contributes nothing to the initial deadweight. -/
theorem initial_dwt_spec_witness :
    initial_dwt [⟨"A", 7, 9, none, some 3⟩] 5 = 0 :=
  (initial_dwt_spec [⟨"A", 7, 9, none, some 3⟩] 5).2 (by decide)

theorem mem_ite_singleton {α : Type} {P : Prop} [Decidable P] (a b : α) :
    (a ∈ if P then [b] else []) ↔ P ∧ a = b := by
  split <;> simp_all

theorem mem_recordEvents (r : VesselRecord) (s e : Int) (ev : DwtEvent) :
    ev ∈ recordEvents r s e ↔
      r.dwt = some ev.dwt ∧ ev.vessel = r.ship ∧
        ((ev.type = "Arrival" ∧ ev.date = r.arrival_dt ∧
            s ≤ r.arrival_dt ∧ r.arrival_dt ≤ e) ∨
         (ev.type = "Departure" ∧ ev.date = r.departure_dt ∧
            s ≤ r.departure_dt ∧ r.departure_dt ≤ e)) := by
  obtain ⟨d, w, ty, v⟩ := ev
  rcases hd : r.dwt with _ | w0
  · simp [recordEvents, hd]
  · simp only [recordEvents, hd, List.mem_append, mem_ite_singleton,
      DwtEvent.mk.injEq, Option.some.injEq]
    aesop

/-- C2 counterexample: the record with ship "A", arrival 1, departure 2
and missing deadweight has its arrival inside the window `[0, 10]`, yet
the event list is empty — no Arrival event is emitted for it. -/
theorem dwt_timeline_missing_dwt_counterexample :
    (0 : Int) ≤ (⟨"A", 1, 2, none, none⟩ : VesselRecord).arrival_dt ∧
    (⟨"A", 1, 2, none, none⟩ : VesselRecord).arrival_dt ≤ 10 ∧
    dwt_timeline [⟨"A", 1, 2, none, none⟩] 0 10 = [] := by
  decide

/-- C2 amended: the event list contains an Arrival event for a record
exactly when its deadweight is present and `start ≤ arrival ≤ end`, and a
Departure event exactly when its deadweight is present and
`start ≤ departure ≤ end`; a record with missing deadweight contributes
no events at all. -/
theorem dwt_timeline_events (recs : List VesselRecord) (s e : Int)
    (ev : DwtEvent) :
    (ev ∈ dwt_timeline recs s e ↔
      ∃ r, r ∈ recs ∧ r.dwt = some ev.dwt ∧ ev.vessel = r.ship ∧
        ((ev.type = "Arrival" ∧ ev.date = r.arrival_dt ∧
            s ≤ r.arrival_dt ∧ r.arrival_dt ≤ e) ∨
         (ev.type = "Departure" ∧ ev.date = r.departure_dt ∧
            s ≤ r.departure_dt ∧ r.departure_dt ≤ e))) ∧
    (∀ r : VesselRecord, r.dwt = none → recordEvents r s e = []) := by
  constructor
  · simp only [dwt_timeline, List.mem_flatMap, mem_recordEvents]
  · intro r hr
    simp [recordEvents, hr]

/-- Witness for C2 amended at a concrete input: a record with deadweight 4
arriving at 3 inside `[0, 10]` puts the corresponding Arrival event in the
timeline, and a missing-deadweight record contributes no events. -/
theorem dwt_timeline_events_witness :
    (⟨3, 4, "Arrival", "A"⟩ : DwtEvent) ∈
      dwt_timeline [⟨"A", 3, 20, none, some 4⟩] 0 10 ∧
    recordEvents ⟨"B", 3, 20, none, none⟩ 0 10 = [] :=
  ⟨(dwt_timeline_events [⟨"A", 3, 20, none, some 4⟩] 0 10
      ⟨3, 4, "Arrival", "A"⟩).1.2
    ⟨⟨"A", 3, 20, none, some 4⟩, by decide, rfl, rfl,
      Or.inl ⟨rfl, rfl, by decide, by decide⟩⟩,
   (dwt_timeline_events [] 0 10 ⟨3, 4, "Arrival", "A"⟩).2
     ⟨"B", 3, 20, none, none⟩ rfl⟩

/-- C3 counterexample: for the single record with ship "A", interval
`[100, 200]` and deadweight 5 against the window `[0, 10]`, no event falls
in the window and the initial deadweight is 0, yet no series is emitted at
all (the code shows "No DWT data available" instead of a flat series). -/
theorem dwt_plot_no_series_counterexample :
    dwt_timeline [⟨"A", 100, 200, none, some 5⟩] 0 10 = [] ∧
    initial_dwt [⟨"A", 100, 200, none, some 5⟩] 0 = 0 ∧
    dwt_plot [⟨"A", 100, 200, none, some 5⟩] 0 10 = none := by
  decide

/-- C3 amended: when no Arrival or Departure event falls in the window,
the emitted series is the flat two-point series (initial value at window
start and at window end) if the initial deadweight is positive, and no
series is emitted at all if the initial deadweight is not positive (in
particular when it is 0). -/
theorem dwt_plot_flat_series (recs : List VesselRecord) (s e : Int)
    (hev : dwt_timeline recs s e = []) :
    (0 < initial_dwt recs s →
      dwt_plot recs s e =
        some [⟨s, initial_dwt recs s⟩, ⟨e, initial_dwt recs s⟩]) ∧
    (initial_dwt recs s ≤ 0 → dwt_plot recs s e = none) := by
  constructor
  · intro h
    simp [dwt_plot, hev, h]
  · intro h
    have hlt : ¬0 < initial_dwt recs s := by omega
    simp [dwt_plot, hev, hlt]

/-- Witness for C3 amended at a concrete input: one vessel already in port
with deadweight 5 and no events in the window yields the flat two-point
series. -/
theorem dwt_plot_flat_series_witness :
    dwt_plot [⟨"A", -5, 200, none, some 5⟩] 0 10 =
      some [⟨0, 5⟩, ⟨10, 5⟩] :=
  (dwt_plot_flat_series [⟨"A", -5, 200, none, some 5⟩] 0 10 (by decide)).1
    (by decide)

/-- C4 counterexample: for the record with ship "B", arrival 10 and
departure 12, reference instant 0 and lookahead 10, the standalone
occupancy filter selects the record (arrival equals the window end) while
the canonical In-Port classifier over `[0, 10]` rejects it — the two
scripts do not implement the same overlap logic. -/
theorem ocupacion_in_port_counterexample :
    ocupacion [⟨"B", 10, 12, none, none⟩] 0 10 =
      [⟨"B", 10, 12, none, none⟩] ∧
    in_port [⟨"B", 10, 12, none, none⟩] 0 10 = [] := by
  decide

/-- C4 amended: the standalone lookahead occupancy filter (non-strict
boundaries) selects a superset of the canonical In-Port classifier on the
window `[t, t + L]`, and the two agree on every record whose arrival is
not exactly `t + L` and whose departure is not exactly `t`. -/
theorem ocupacion_refines_in_port (recs : List VesselRecord) (t L : Int) :
    (∀ r, r ∈ in_port recs t (t + L) → r ∈ ocupacion recs t L) ∧
    (∀ r, r ∈ recs → r.arrival_dt ≠ t + L → r.departure_dt ≠ t →
      (r ∈ ocupacion recs t L ↔ r ∈ in_port recs t (t + L))) := by
  constructor
  · intro r hr
    rw [mem_in_port_iff] at hr
    rw [mem_ocupacion_iff]
    exact ⟨hr.1, by omega, by omega⟩
  · intro r hmem ha hd
    rw [mem_ocupacion_iff, mem_in_port_iff]
    constructor
    · rintro ⟨h1, h2, h3⟩; exact ⟨h1, by omega, by omega⟩
    · rintro ⟨h1, h2, h3⟩; exact ⟨h1, by omega, by omega⟩

/-- Witness for C4 amended at a concrete input: a record strictly inside
the lookahead window is selected by both filters. -/
theorem ocupacion_refines_in_port_witness :
    (⟨"B", 1, 9, none, none⟩ : VesselRecord) ∈
      ocupacion [⟨"B", 1, 9, none, none⟩] 0 10 :=
  (ocupacion_refines_in_port [⟨"B", 1, 9, none, none⟩] 0 10).1
    ⟨"B", 1, 9, none, none⟩ (by decide)

theorem mem_proc_valid (rows : List RawRow) (r : VesselRecord) :
    r ∈ proc_valid rows ↔
      ∃ row, row ∈ rows ∧
        parse_datetime_from_row row.arr_date row.arr_time = some r.arrival_dt ∧
        parse_datetime_from_row row.dep_date row.dep_time = some r.departure_dt ∧
        r.ship = row.ship ∧ r.berth = row.berth ∧ r.dwt = row.dwt := by
  simp only [proc_valid, List.mem_filterMap]
  constructor
  · rintro ⟨row, hmem, hrow⟩
    rcases h1 : parse_datetime_from_row row.arr_date row.arr_time with _ | a
    · rw [h1] at hrow
      simp at hrow
    · rcases h2 : parse_datetime_from_row row.dep_date row.dep_time with _ | d
      · rw [h1, h2] at hrow
        simp at hrow
      · rw [h1, h2] at hrow
        simp only [Option.some.injEq] at hrow
        subst hrow
        exact ⟨row, hmem, h1, h2, rfl, rfl, rfl⟩
  · rintro ⟨row, hmem, h1, h2, hs, hb, hw⟩
    refine ⟨row, hmem, ?_⟩
    rw [h1, h2]
    simp only [Option.some.injEq]
    obtain ⟨ship, a, d, b, w⟩ := r
    simp_all

/-- C7: the row parser is total — either cell absent, or any parse
failure, yields "no value" rather than an exception — and every record in
any of the Arriving, Departing or In-Port subsets stems from a row whose
arrival and departure cells both parsed successfully, so a record with an
unparseable arrival or departure appears in none of the subsets. -/
theorem unparseable_rows_excluded :
    (∀ (dc : DateCell) (tc : TimeCell),
      dc = DateCell.null ∨ tc = TimeCell.null →
      parse_datetime_from_row dc tc = none) ∧
    (∀ (rows : List RawRow) (s e : Int) (r : VesselRecord),
      (r ∈ arriving (proc_valid rows) s e ∨
       r ∈ departing (proc_valid rows) s e ∨
       r ∈ in_port (proc_valid rows) s e) →
      ∃ row, row ∈ rows ∧
        parse_datetime_from_row row.arr_date row.arr_time = some r.arrival_dt ∧
        parse_datetime_from_row row.dep_date row.dep_time = some r.departure_dt) := by
  constructor
  · intro dc tc h
    unfold parse_datetime_from_row
    rw [if_pos h]
  · intro rows s e r hmem
    have hr : r ∈ proc_valid rows := by
      rcases hmem with h | h | h
      · exact ((mem_arriving_iff _ _ _ _).1 h).1
      · exact ((mem_departing_iff _ _ _ _).1 h).1
      · exact ((mem_in_port_iff _ _ _ _).1 h).1
    obtain ⟨row, hrow, h1, h2, _⟩ := (mem_proc_valid rows r).1 hr
    exact ⟨row, hrow, h1, h2⟩

/-- Witness for C7 at concrete inputs: a null date cell parses to "no
value", and the one classified record of a one-row table stems from that
row's successfully parsed cells. -/
theorem unparseable_rows_excluded_witness :
    parse_datetime_from_row DateCell.null (TimeCell.text "12:00:00") = none ∧
    ∃ row, row ∈ [(⟨"A", DateCell.structured 0, TimeCell.structured ⟨1, 0, 0⟩,
        DateCell.structured 0, TimeCell.structured ⟨2, 0, 0⟩, none, none⟩ : RawRow)] ∧
      parse_datetime_from_row row.arr_date row.arr_time =
        some (⟨"A", 3600, 7200, none, none⟩ : VesselRecord).arrival_dt ∧
      parse_datetime_from_row row.dep_date row.dep_time =
        some (⟨"A", 3600, 7200, none, none⟩ : VesselRecord).departure_dt :=
  ⟨unparseable_rows_excluded.1 DateCell.null (TimeCell.text "12:00:00")
      (Or.inl rfl),
   unparseable_rows_excluded.2
     [⟨"A", DateCell.structured 0, TimeCell.structured ⟨1, 0, 0⟩,
        DateCell.structured 0, TimeCell.structured ⟨2, 0, 0⟩, none, none⟩]
     0 10000 ⟨"A", 3600, 7200, none, none⟩ (Or.inl (by decide))⟩

/-- C9: a text time cell is parsed by first truncating everything from the
first dot on and then parsing the remainder as HH:MM:SS; in particular the
input "14:30:45.500" parses to the time 14:30:45. -/
theorem time_fractional_truncation :
    (∀ s : String,
      parseTimeCell (TimeCell.text s) =
        parseHMS (truncateFractional (stripString s))) ∧
    truncateFractional "14:30:45.500" = "14:30:45" ∧
    parseTimeCell (TimeCell.text "14:30:45.500") = some ⟨14, 30, 45⟩ := by
  refine ⟨fun s => rfl, ?_, ?_⟩ <;> decide

end PortDashboard
